import Mathlib

/-!
Verification of the `embassy-matter` adaptation layer.

This file shallowly embeds the parts of the repository relevant to its
specification:

* `rs-matter-embassy/src/nal.rs` — link-local IPv6 derivation from a MAC
  address and the multicast-MAC derivation;
* `src/netif.rs` — the `EmbassyNetif` implementation of the `Netif` trait
  (`get_conf`, `wait_conf_change`);
* `rs-matter-embassy/src/wireless.rs` — the Wifi controller adaptors
  (`EspWifiController`, `Cyw43WifiController`) and the `EmbassyWifi::run`
  race between the caller task and the link-stack background loop.

Machine integers (`u8`, `u16`) are modelled as `Nat`; the byte arguments of
the address-derivation functions carry explicit `< 256` bounds where the
statements need them.  Native driver calls (esp-wifi, cyw43) are modelled as
oracles: a record of the outcome of each native operation.  Asynchrony is
modelled with explicit completion times (`Option Nat`, `none` = the activity
never completes), which is enough to state the select/timeout and
race/coalesce properties of the source.
-/

namespace EmbassyMatter

/-! ### `nal.rs`: address derivation -/

/-- Rust `u16::from_be_bytes([a, b])` for byte values `a b < 256`:
the big-endian 16-bit value `a * 256 + b`. -/
def u16_from_be_bytes (a b : ℕ) : ℕ := 256 * a + b

/-- `core::net::Ipv6Addr`: eight 16-bit segments, as produced by
`Ipv6Addr::new(s0, ..., s7)`. -/
structure Ipv6Addr where
  s0 : ℕ
  s1 : ℕ
  s2 : ℕ
  s3 : ℕ
  s4 : ℕ
  s5 : ℕ
  s6 : ℕ
  s7 : ℕ
deriving DecidableEq

/-- Rust `Ipv6Addr::new`. -/
def Ipv6Addr.new (a b c d e f g h : ℕ) : Ipv6Addr := ⟨a, b, c, d, e, f, g, h⟩

/-- Rust `Ipv6Addr::octets()`: the 16 bytes of the address, each segment
serialized big-endian. -/
def Ipv6Addr.octets (ip : Ipv6Addr) : List ℕ :=
  [ip.s0 / 256, ip.s0 % 256, ip.s1 / 256, ip.s1 % 256,
   ip.s2 / 256, ip.s2 % 256, ip.s3 / 256, ip.s3 % 256,
   ip.s4 / 256, ip.s4 % 256, ip.s5 / 256, ip.s5 % 256,
   ip.s6 / 256, ip.s6 % 256, ip.s7 / 256, ip.s7 % 256]

/-- A 6-byte hardware (MAC) address, `[u8; 6]` in the source. -/
structure Mac where
  b0 : ℕ
  b1 : ℕ
  b2 : ℕ
  b3 : ℕ
  b4 : ℕ
  b5 : ℕ
deriving DecidableEq

/-- `nal.rs` `create_link_local_ipv6(mac)`:
`Ipv6Addr::new(0xfe80, 0, 0, 0, u16::from_be_bytes([mac[0] ^ 0x02, mac[1]]),
u16::from_be_bytes([mac[2], 0xff]), u16::from_be_bytes([0xfe, mac[3]]),
u16::from_be_bytes([mac[4], mac[5]]))`. -/
def create_link_local_ipv6 (mac : Mac) : Ipv6Addr :=
  Ipv6Addr.new 0xfe80 0 0 0
    (u16_from_be_bytes (mac.b0 ^^^ 0x02) mac.b1)
    (u16_from_be_bytes mac.b2 0xff)
    (u16_from_be_bytes 0xfe mac.b3)
    (u16_from_be_bytes mac.b4 mac.b5)

/-- `nal.rs` `multicast_mac_for_link_local_ipv6(ip)`: starts from
`[0x33, 0x33, 0xff, 0, 0, 0]` and copies `ip.octets()[13..]` into the last
three bytes, i.e. `[0x33, 0x33, 0xff] ++ ip.octets()[13..]`. -/
def multicast_mac_for_link_local_ipv6 (ip : Ipv6Addr) : List ℕ :=
  [0x33, 0x33, 0xff] ++ ip.octets.drop 13

/-- Bridging lemma between the spec's `(a << 8) | b` formulation and the
source's `u16::from_be_bytes` arithmetic: for a byte `b < 256` the bitwise
disjunction is ordinary addition. -/
theorem shiftLeft_eight_or (a b : ℕ) (hb : b < 256) : (a <<< 8) ||| b = 256 * a + b := by
  apply Nat.eq_of_testBit_eq
  intro j
  have h256 : (256 : ℕ) * a + b = 2 ^ 8 * a + b := by norm_num
  have hb8 : b < 2 ^ 8 := by norm_num at hb ⊢; omega
  rw [Nat.testBit_or, Nat.testBit_shiftLeft, h256, Nat.testBit_mul_pow_two_add a hb8 j]
  rcases Nat.lt_or_ge j 8 with hj | hj
  · have hnot : ¬ (j ≥ 8) := by omega
    simp [hj, hnot]
  · have hbt : b.testBit j = false := by
      apply Nat.testBit_lt_two_pow
      calc b < 2 ^ 8 := hb8
        _ ≤ 2 ^ j := Nat.pow_le_pow_right (by norm_num) hj
    have hnot : ¬ (j < 8) := by omega
    simp [hj, hnot, hbt]

/-! ### `netif.rs`: the `EmbassyNetif` implementation of `Netif` -/

/-- `netif.rs` `TIMEOUT_PERIOD_SECS`. -/
def TIMEOUT_PERIOD_SECS : ℕ := 5

/-- The unified rs-matter `Error` type, as far as this layer produces it:
`to_err` in `wireless.rs` always yields `ErrorCode::NoNetworkInterface`,
`to_net_error` in `error.rs` yields some network error, and caller-supplied
callbacks/tasks may carry arbitrary other errors. -/
inductive MatterError where
  | noNetworkInterface : MatterError
  | netError : MatterError
  | other : ℕ → MatterError
deriving DecidableEq

/-- `error.rs` `to_net_error` (its exact error code is irrelevant to the
claims; all that matters is that it is an error value). -/
def to_net_error (_ : Unit) : MatterError := MatterError.netError

/-- An `embassy_net` IPv4 CIDR block: an address (4 octets) plus a length;
`v4.address.address()` in the source projects out the address. -/
structure Ipv4Cidr where
  address : List ℕ
  cidr_len : ℕ
deriving DecidableEq

/-- An `embassy_net` `StaticConfigV4`, restricted to the field the source
reads (`address`). -/
structure StaticConfigV4 where
  address : Ipv4Cidr
deriving DecidableEq

/-- An `embassy_net` IPv6 CIDR block. -/
structure Ipv6Cidr where
  address : Ipv6Addr
  cidr_len : ℕ
deriving DecidableEq

/-- An `embassy_net` `StaticConfigV6`, restricted to the field the source
reads (`address`). -/
structure StaticConfigV6 where
  address : Ipv6Cidr
deriving DecidableEq

/-- The observable state of the `embassy_net` stack as `EmbassyNetif` reads
it: `config_v4()`/`config_v6()` return `Some` exactly when the respective
configuration has completed. -/
structure StackState where
  config_v4 : Option StaticConfigV4
  config_v6 : Option StaticConfigV6
deriving DecidableEq

/-- rs-matter-stack `NetifConf`: the snapshot `get_conf` builds. -/
structure NetifConf where
  ipv4 : List ℕ
  ipv6 : Ipv6Addr
  interface : ℕ
  mac : List ℕ
deriving DecidableEq

/-- `EmbassyNetif::get_conf` (the inherent method, `netif.rs` lines 34-51):
fails with `Err(())` if either the IPv4 or the IPv6 configuration is absent,
otherwise builds the snapshot with `interface: 0` and `mac: [0; 6]`. -/
def EmbassyNetif.get_conf (stack : StackState) : Except Unit NetifConf :=
  match stack.config_v4 with
  | none => Except.error ()
  | some v4 =>
    match stack.config_v6 with
    | none => Except.error ()
    | some v6 =>
      Except.ok
        { ipv4 := v4.address.address
          ipv6 := v6.address.address
          interface := 0
          mac := [0, 0, 0, 0, 0, 0] }

/-- Completion time of `embassy_futures::select::select(a, b)`: the earlier
of the two completion times (`none` = never completes). -/
def selectCompletion (a b : Option ℕ) : Option ℕ :=
  match a, b with
  | none, none => none
  | some t, none => some t
  | none, some t => some t
  | some t1, some t2 => some (min t1 t2)

/-- `EmbassyNetif::wait_conf_change` (the inherent method, `netif.rs` lines
53-63): `select(stack.wait_config_up(), Timer::after(5s))`, then `Ok(())`.
Modelled over completion times: `wait_up_ready_at` is the time at which
`wait_config_up` would complete (`none` = never); the timer completes at
`TIMEOUT_PERIOD_SECS`.  The result is the pair (completion time of the
select, returned value). -/
def EmbassyNetif.wait_conf_change (wait_up_ready_at : Option ℕ) :
    Option ℕ × Except Unit Unit :=
  (selectCompletion wait_up_ready_at (some TIMEOUT_PERIOD_SECS), Except.ok ())

/-- The `Netif` trait implementation of `get_conf` (`netif.rs` lines 69-71):
`Ok(EmbassyNetif::get_conf(self).ok())`. -/
def Netif.get_conf (stack : StackState) : Except MatterError (Option NetifConf) :=
  Except.ok
    (match EmbassyNetif.get_conf stack with
     | Except.ok conf => some conf
     | Except.error _ => none)

/-- The `Netif` trait implementation of `wait_conf_change` (`netif.rs` lines
73-79): the inherent method with its error (if any) mapped through
`to_net_error`. -/
def Netif.wait_conf_change (wait_up_ready_at : Option ℕ) :
    Option ℕ × Except MatterError Unit :=
  (let r := EmbassyNetif.wait_conf_change wait_up_ready_at
   (r.1,
    match r.2 with
    | Except.error e => Except.error (to_net_error e)
    | Except.ok _ => Except.ok ()))

/-! ### `wireless.rs`: the Wifi controller adaptors -/

/-- rs-matter `WifiCredentials`: an SSID plus a password. -/
structure WifiCredentials where
  ssid : String
  password : String
deriving DecidableEq

/-- esp-wifi `AuthMethod` (the variants the source's `match` distinguishes,
plus a catch-all for the remaining variants). -/
inductive AuthMethod where
  | none : AuthMethod
  | wep : AuthMethod
  | wpa : AuthMethod
  | wpa3Personal : AuthMethod
  | otherMethod : AuthMethod
deriving DecidableEq

/-- rs-matter `WiFiSecurity`. -/
inductive WiFiSecurity where
  | unencrypted : WiFiSecurity
  | wep : WiFiSecurity
  | wpaPersonal : WiFiSecurity
  | wpa2Personal : WiFiSecurity
  | wpa3Personal : WiFiSecurity
deriving DecidableEq

/-- esp-wifi `AccessPointInfo`: the fields the source reads. -/
structure AccessPoint where
  ssid : String
  bssid : List ℕ
  channel : ℕ
  signal_strength : ℤ
  auth_method : Option AuthMethod
deriving DecidableEq

/-- rs-matter `WifiScanResult`: the value the adaptor hands the callback. -/
structure WifiScanResult where
  ssid : String
  bssid : List ℕ
  channel : ℕ
  rssi : Option ℤ
  band : Option ℕ
  security : WiFiSecurity
deriving DecidableEq

/-- The `WifiScanResult` the esp adaptor builds for one access point
(`wireless.rs` lines 576-591), including the `auth_method` translation. -/
def convert_ap (ap : AccessPoint) : WifiScanResult :=
  { ssid := ap.ssid
    bssid := ap.bssid
    channel := ap.channel
    rssi := some ap.signal_strength
    band := none
    security :=
      match ap.auth_method with
      | some AuthMethod.none => WiFiSecurity.unencrypted
      | some AuthMethod.wep => WiFiSecurity.wep
      | some AuthMethod.wpa => WiFiSecurity.wpaPersonal
      | some AuthMethod.wpa3Personal => WiFiSecurity.wpa3Personal
      | _ => WiFiSecurity.wpa2Personal }

/-- `wireless.rs` `to_err`: every native esp-wifi `WifiError` maps to
`ErrorCode::NoNetworkInterface`. -/
def to_err (_ : Unit) : MatterError := MatterError.noNetworkInterface

/-- An oracle for the native esp-wifi `WifiController` operations invoked by
the adaptor: the outcome of each native call (`Except.error ()` = the native
call fails with some `WifiError`).  `scan_with_config` takes the optional
SSID filter the adaptor puts into `ScanConfig`. -/
structure EspWifiNative where
  is_started : Except Unit Bool
  stop_async : Except Unit Unit
  set_configuration : Except Unit Unit
  start_async : Except Unit Unit
  connect_async : Except Unit Unit
  is_connected : Except Unit Bool
  scan_with_config : Option String → Except Unit (List AccessPoint)

/-- The callback loop of `EspWifiController::scan` (`for ap in aps { callback(Some(..))? }`):
returns the scan outcome together with the trace of arguments the callback
was invoked with, stopping at the first callback error. -/
def scanLoop (callback : Option WifiScanResult → Except MatterError Unit) :
    List AccessPoint → Except MatterError Unit × List (Option WifiScanResult)
  | [] => (Except.ok (), [])
  | ap :: rest =>
    match callback (some (convert_ap ap)) with
    | Except.error e => (Except.error e, [some (convert_ap ap)])
    | Except.ok _ =>
      let r := scanLoop callback rest
      (r.1, some (convert_ap ap) :: r.2)

/-- `EspWifiController::scan` (`wireless.rs` lines 550-597): start the driver
if needed, run the native scan with the optional SSID filter, invoke the
callback once per discovered network and then once with `None`; native
failures map through `to_err` and short-circuit.  Returns the result paired
with the trace of callback invocations. -/
def EspWifiController.scan (native : EspWifiNative) (network_id : Option String)
    (callback : Option WifiScanResult → Except MatterError Unit) :
    Except MatterError Unit × List (Option WifiScanResult) :=
  match native.is_started with
  | Except.error e => (Except.error (to_err e), [])
  | Except.ok started =>
    match (if started then Except.ok () else native.start_async) with
    | Except.error e => (Except.error (to_err e), [])
    | Except.ok _ =>
      match native.scan_with_config network_id with
      | Except.error e => (Except.error (to_err e), [])
      | Except.ok aps =>
        let r := scanLoop callback aps
        match r.1 with
        | Except.error e => (Except.error e, r.2)
        | Except.ok _ =>
          match callback none with
          | Except.error e => (Except.error e, r.2 ++ [none])
          | Except.ok _ => (Except.ok (), r.2 ++ [none])

/-- `EspWifiController::connect` (`wireless.rs` lines 599-627): clear the
recorded identity (`self.1 = None`), stop the driver if started, apply the
new configuration, start, associate, then record the SSID exactly when the
native driver reports the association established
(`self.1 = is_connected()?.then_some(creds.ssid.clone())`).  `prev` is the
previously recorded identity (`self.1` on entry); the returned pair is
(result, recorded identity on exit). -/
def EspWifiController.connect (native : EspWifiNative) (creds : WifiCredentials)
    (prev : Option String) : Except MatterError Unit × Option String :=
  match native.is_started with
  | Except.error e => (Except.error (to_err e), none)
  | Except.ok started =>
    match (if started then native.stop_async else Except.ok ()) with
    | Except.error e => (Except.error (to_err e), none)
    | Except.ok _ =>
      match native.set_configuration with
      | Except.error e => (Except.error (to_err e), none)
      | Except.ok _ =>
        match native.start_async with
        | Except.error e => (Except.error (to_err e), none)
        | Except.ok _ =>
          match native.connect_async with
          | Except.error e => (Except.error (to_err e), none)
          | Except.ok _ =>
            match native.is_connected with
            | Except.error e => (Except.error (to_err e), none)
            | Except.ok conn =>
              (Except.ok (), if conn then some creds.ssid else none)

/-- `EspWifiController::connected_network` (`wireless.rs` lines 629-638):
`Ok(self.1.clone())`. -/
def EspWifiController.connected_network (recorded : Option String) :
    Except MatterError (Option String) :=
  Except.ok recorded

/-- `EspWifiController::stats` (`wireless.rs` lines 640-642): `Ok(None)`,
leaving the recorded identity untouched. -/
def EspWifiController.stats (recorded : Option String) :
    Except MatterError (Option Unit) × Option String :=
  (Except.ok none, recorded)

/-- `Cyw43WifiController::scan` (`wireless.rs` lines 365-412): the entire
body is commented out; the function returns `Ok(())` without invoking the
callback at all. -/
def Cyw43WifiController.scan (network_id : Option String)
    (callback : Option WifiScanResult → Except MatterError Unit) :
    Except MatterError Unit × List (Option WifiScanResult) :=
  (Except.ok (), [])

/-- `Cyw43WifiController::connect` (`wireless.rs` lines 414-442): clears the
recorded identity (`self.1 = None`); the rest of the body is commented out,
so it returns `Ok(())` with no identity recorded. -/
def Cyw43WifiController.connect (creds : WifiCredentials) (prev : Option String) :
    Except MatterError Unit × Option String :=
  (Except.ok (), none)

/-- `Cyw43WifiController::connected_network` (`wireless.rs` lines 444-453):
`Ok(self.1.clone())`. -/
def Cyw43WifiController.connected_network (recorded : Option String) :
    Except MatterError (Option String) :=
  Except.ok recorded

/-- `Cyw43WifiController::stats` (`wireless.rs` lines 455-457): `Ok(None)`. -/
def Cyw43WifiController.stats (recorded : Option String) :
    Except MatterError (Option Unit) × Option String :=
  (Except.ok none, recorded)

/-- The race at the heart of `EmbassyWifi::run` (`wireless.rs` lines
332-339): `select(main, run).coalesce()`, where `main` is the caller's task
and `run` is `async { runner.run().await; Ok(()) }` — if the background loop
ever terminates, its contribution is `Ok(())` by construction.  Modelled
over completion times: `mainT`/`bgT` are the times at which the caller task
and the background loop would complete (`none` = never), `mainRes` is the
caller task's result.  On a tie the first (caller) future wins, as in
`embassy_futures::select`.  The overall result is `none` when neither
activity ever completes. -/
def EmbassyWifi.run (mainT : Option ℕ) (mainRes : Except MatterError Unit)
    (bgT : Option ℕ) : Option (Except MatterError Unit) :=
  match mainT, bgT with
  | none, none => none
  | some _, none => some mainRes
  | none, some _ => some (Except.ok ())
  | some tm, some tb => if tm ≤ tb then some mainRes else some (Except.ok ())

/-! ### Supporting lemmas -/

/-- If the callback always succeeds, the scan loop succeeds and invokes the
callback once per access point, in order. -/
theorem scanLoop_all_ok (callback : Option WifiScanResult → Except MatterError Unit)
    (h : ∀ r, callback r = Except.ok ()) (aps : List AccessPoint) :
    scanLoop callback aps = (Except.ok (), aps.map fun ap => some (convert_ap ap)) := by
  induction aps with
  | nil => rfl
  | cons ap rest ih => simp [scanLoop, h, ih]

/-- The esp adaptor's scan protocol on the happy path: one callback
invocation per discovered network, then one `none` sentinel. -/
theorem esp_scan_protocol (native : EspWifiNative) (network_id : Option String)
    (callback : Option WifiScanResult → Except MatterError Unit) (aps : List AccessPoint)
    (h1 : native.is_started = Except.ok true)
    (h2 : native.scan_with_config network_id = Except.ok aps)
    (h3 : ∀ r, callback r = Except.ok ()) :
    EspWifiController.scan native network_id callback =
      (Except.ok (), (aps.map fun ap => some (convert_ap ap)) ++ [none]) := by
  simp [EspWifiController.scan, h1, h2, scanLoop_all_ok callback h3, h3]

/-! ### Claim theorems -/

/-- Claim C2: for every 6-byte hardware address `m` (bytes `< 256`),
`create_link_local_ipv6 m` is `fe80::` followed by the interface identifier
whose 16-bit groups are `(m[0] XOR 0x02) << 8 | m[1]`, `m[2] << 8 | 0xff`,
`0xfe << 8 | m[3]` and `m[4] << 8 | m[5]`; in particular
`52:74:f2:b1:a8:7f` maps to `fe80::5074:f2ff:feb1:a87f`. -/
theorem create_link_local_ipv6_matches_spec : ∀ m : Mac,
    m.b0 < 256 → m.b1 < 256 → m.b2 < 256 → m.b3 < 256 → m.b4 < 256 → m.b5 < 256 →
    (create_link_local_ipv6 m =
      Ipv6Addr.new 0xfe80 0 0 0 (((m.b0 ^^^ 0x02) <<< 8) ||| m.b1) ((m.b2 <<< 8) ||| 0xff)
        ((0xfe <<< 8) ||| m.b3) ((m.b4 <<< 8) ||| m.b5)) ∧
    (create_link_local_ipv6 ⟨0x52, 0x74, 0xf2, 0xb1, 0xa8, 0x7f⟩).octets =
      [0xfe, 0x80, 0, 0, 0, 0, 0, 0, 0x50, 0x74, 0xf2, 0xff, 0xfe, 0xb1, 0xa8, 0x7f] := by
  intro m h0 h1 h2 h3 h4 h5
  refine ⟨?_, by decide⟩
  simp only [create_link_local_ipv6, Ipv6Addr.new, u16_from_be_bytes]
  rw [shiftLeft_eight_or _ _ h1, shiftLeft_eight_or _ _ (by norm_num : (0xff : ℕ) < 256),
    shiftLeft_eight_or _ _ h3, shiftLeft_eight_or _ _ h5]

/-- Witness for C2 at the spec's own example address. -/
theorem create_link_local_ipv6_matches_spec_witness :
    create_link_local_ipv6 ⟨0x52, 0x74, 0xf2, 0xb1, 0xa8, 0x7f⟩ =
      Ipv6Addr.new 0xfe80 0 0 0 (((0x52 ^^^ 0x02) <<< 8) ||| 0x74) ((0xf2 <<< 8) ||| 0xff)
        ((0xfe <<< 8) ||| 0xb1) ((0xa8 <<< 8) ||| 0x7f) :=
  (create_link_local_ipv6_matches_spec ⟨0x52, 0x74, 0xf2, 0xb1, 0xa8, 0x7f⟩
    (by decide) (by decide) (by decide) (by decide) (by decide) (by decide)).1

/-- Claim C4: for every IPv6 address, the derived multicast MAC is
`33:33:ff:` followed by the last three octets of the address. -/
theorem multicast_mac_for_link_local_ipv6_spec : ∀ ip : Ipv6Addr,
    multicast_mac_for_link_local_ipv6 ip =
      [0x33, 0x33, 0xff, ip.octets.getD 13 0, ip.octets.getD 14 0, ip.octets.getD 15 0] := by
  intro ip
  obtain ⟨s0, s1, s2, s3, s4, s5, s6, s7⟩ := ip
  rfl

/-- Claim C7: `create_link_local_ipv6` is a (deterministic) function of the
hardware address and is injective on byte-valued inputs: equal link-local
addresses force equal MAC addresses. -/
theorem create_link_local_ipv6_injective : ∀ m1 m2 : Mac,
    m1.b0 < 256 → m1.b1 < 256 → m1.b2 < 256 → m1.b3 < 256 → m1.b4 < 256 → m1.b5 < 256 →
    m2.b0 < 256 → m2.b1 < 256 → m2.b2 < 256 → m2.b3 < 256 → m2.b4 < 256 → m2.b5 < 256 →
    create_link_local_ipv6 m1 = create_link_local_ipv6 m2 → m1 = m2 := by
  intro m1 m2 ha0 ha1 ha2 ha3 ha4 ha5 hb0 hb1 hb2 hb3 hb4 hb5 h
  obtain ⟨a0, a1, a2, a3, a4, a5⟩ := m1
  obtain ⟨b0, b1, b2, b3, b4, b5⟩ := m2
  simp only [Mac.b0, Mac.b1, Mac.b2, Mac.b3, Mac.b4, Mac.b5] at ha0 ha1 ha2 ha3 ha4 ha5 hb0 hb1 hb2 hb3 hb4 hb5
  simp only [create_link_local_ipv6, Ipv6Addr.new, u16_from_be_bytes, Ipv6Addr.mk.injEq,
    true_and, and_true, eq_self_iff_true] at h
  obtain ⟨e1, e2, e3, e4⟩ := h
  have h28 : (256 : ℕ) = 2 ^ 8 := by norm_num
  have hx1 : a0 ^^^ 2 < 256 := by
    rw [h28] at ha0 ⊢
    exact Nat.xor_lt_two_pow ha0 (by norm_num)
  have hx2 : b0 ^^^ 2 < 256 := by
    rw [h28] at hb0 ⊢
    exact Nat.xor_lt_two_pow hb0 (by norm_num)
  have ex : a0 ^^^ 2 = b0 ^^^ 2 := by omega
  have e0 : a0 = b0 := by
    have hc := congrArg (fun t => t ^^^ 2) ex
    simpa [Nat.xor_cancel_right] using hc
  simp only [Mac.mk.injEq]
  refine ⟨e0, by omega, by omega, by omega, by omega, by omega⟩

/-- Witness for C7 at a concrete pair of equal inputs. -/
theorem create_link_local_ipv6_injective_witness :
    (⟨0x52, 0x74, 0xf2, 0xb1, 0xa8, 0x7f⟩ : Mac) = ⟨0x52, 0x74, 0xf2, 0xb1, 0xa8, 0x7f⟩ :=
  create_link_local_ipv6_injective _ _
    (by decide) (by decide) (by decide) (by decide) (by decide) (by decide)
    (by decide) (by decide) (by decide) (by decide) (by decide) (by decide) rfl

/-- A concrete stack state with both configurations completed, used by the
witnesses below. -/
def sampleStack : StackState :=
  { config_v4 := some { address := { address := [192, 168, 0, 2], cidr_len := 24 } }
    config_v6 := some { address := { address := Ipv6Addr.new 0xfe80 0 0 0 1 2 3 4, cidr_len := 10 } } }

/-- The snapshot `get_conf` yields on `sampleStack`. -/
def sampleConf : NetifConf :=
  { ipv4 := [192, 168, 0, 2]
    ipv6 := Ipv6Addr.new 0xfe80 0 0 0 1 2 3 4
    interface := 0
    mac := [0, 0, 0, 0, 0, 0] }

/-- Claim C5: the `Netif` implementation of `get_conf` returns `Ok(None)`
exactly when the stack lacks a completed IPv4 or IPv6 configuration, returns
the snapshot with the stack's current addresses when both are present, and
never returns an error. -/
theorem get_conf_snapshot_spec : ∀ stack : StackState,
    (Netif.get_conf stack = Except.ok none ↔
      (stack.config_v4 = none ∨ stack.config_v6 = none)) ∧
    (∀ v4 v6, stack.config_v4 = some v4 → stack.config_v6 = some v6 →
      Netif.get_conf stack = Except.ok (some
        { ipv4 := v4.address.address
          ipv6 := v6.address.address
          interface := 0
          mac := [0, 0, 0, 0, 0, 0] })) ∧
    (∀ e, Netif.get_conf stack ≠ Except.error e) := by
  intro stack
  refine ⟨?_, ?_, ?_⟩
  · obtain ⟨cv4, cv6⟩ := stack
    cases cv4 <;> cases cv6 <;> simp [Netif.get_conf, EmbassyNetif.get_conf]
  · intro v4 v6 h1 h2
    simp [Netif.get_conf, EmbassyNetif.get_conf, h1, h2]
  · intro e
    simp [Netif.get_conf]

/-- Witness for C5 on a stack with both configurations present. -/
theorem get_conf_snapshot_spec_witness :
    Netif.get_conf sampleStack = Except.ok (some sampleConf) :=
  (get_conf_snapshot_spec sampleStack).2.1 _ _ rfl rfl

/-- Claim C10: every snapshot `get_conf` returns carries interface index 0
and the all-zero MAC address, regardless of the stack state. -/
theorem get_conf_interface_mac_constant : ∀ (stack : StackState) (conf : NetifConf),
    Netif.get_conf stack = Except.ok (some conf) →
    conf.interface = 0 ∧ conf.mac = [0, 0, 0, 0, 0, 0] := by
  intro stack conf h
  obtain ⟨cv4, cv6⟩ := stack
  cases cv4 <;> cases cv6 <;> simp [Netif.get_conf, EmbassyNetif.get_conf] at h
  subst h
  exact ⟨rfl, rfl⟩

/-- Witness for C10 at a configured stack. -/
theorem get_conf_interface_mac_constant_witness :
    sampleConf.interface = 0 ∧ sampleConf.mac = [0, 0, 0, 0, 0, 0] :=
  get_conf_interface_mac_constant sampleStack sampleConf rfl

/-- Claim C6: for every state of `wait_config_up` (complete at some time or
never), `wait_conf_change` completes no later than `TIMEOUT_PERIOD_SECS`
and its result is always `Ok(())` — the error branch is unreachable. -/
theorem wait_conf_change_bounded_and_ok : ∀ wait_up_ready_at : Option ℕ,
    (∃ t, (Netif.wait_conf_change wait_up_ready_at).1 = some t ∧ t ≤ TIMEOUT_PERIOD_SECS) ∧
    (Netif.wait_conf_change wait_up_ready_at).2 = Except.ok () := by
  intro t0
  cases t0 with
  | none => exact ⟨⟨TIMEOUT_PERIOD_SECS, rfl, le_refl _⟩, rfl⟩
  | some t => exact ⟨⟨min t TIMEOUT_PERIOD_SECS, rfl, min_le_right _ _⟩, rfl⟩

/-- Claim C8: `stats` on both controller adaptors returns `Ok(None)` — the
"not available" value, never an error — and leaves the state unchanged. -/
theorem stats_never_error : ∀ recorded : Option String,
    EspWifiController.stats recorded = (Except.ok none, recorded) ∧
    Cyw43WifiController.stats recorded = (Except.ok none, recorded) :=
  fun _ => ⟨rfl, rfl⟩

/-- Claim C9: `EmbassyWifi::run` returns the result of whichever of the
caller task and the background link-stack loop completes first; a
terminating background loop contributes `Ok(())`, so `run` still returns
normally, and only the caller's task can surface an error. -/
theorem embassy_wifi_run_race_spec : ∀ (mainT : Option ℕ)
    (mainRes : Except MatterError Unit) (bgT : Option ℕ),
    (∀ tm, mainT = some tm → (∀ tb, bgT = some tb → tm ≤ tb) →
      EmbassyWifi.run mainT mainRes bgT = some mainRes) ∧
    (∀ tb, bgT = some tb → (∀ tm, mainT = some tm → tb < tm) →
      EmbassyWifi.run mainT mainRes bgT = some (Except.ok ())) ∧
    (∀ e, EmbassyWifi.run mainT mainRes bgT = some (Except.error e) →
      mainRes = Except.error e) := by
  intro mainT mainRes bgT
  cases mainT with
  | none =>
    cases bgT with
    | none =>
      refine ⟨?_, ?_, ?_⟩
      · intro tm h _
        exact Option.noConfusion h
      · intro tb h _
        exact Option.noConfusion h
      · intro e h
        exact Option.noConfusion h
    | some tb =>
      refine ⟨?_, ?_, ?_⟩
      · intro tm h _
        exact Option.noConfusion h
      · intro tb2 h _
        rfl
      · intro e h
        simp [EmbassyWifi.run] at h
  | some tm =>
    cases bgT with
    | none =>
      refine ⟨?_, ?_, ?_⟩
      · intro tm2 h _
        rfl
      · intro tb h _
        exact Option.noConfusion h
      · intro e h
        simpa [EmbassyWifi.run] using h
    | some tb =>
      refine ⟨?_, ?_, ?_⟩
      · intro tm2 h hall
        injection h with h2
        subst h2
        have hle : tm ≤ tb := hall tb rfl
        simp [EmbassyWifi.run, hle]
      · intro tb2 h hall
        injection h with h2
        subst h2
        have hlt : tb < tm := hall tm rfl
        have hnle : ¬ (tm ≤ tb) := by omega
        simp [EmbassyWifi.run, hnle]
      · intro e h
        by_cases hle : tm ≤ tb
        · simp [EmbassyWifi.run, hle] at h
          exact h
        · simp [EmbassyWifi.run, hle] at h

/-- Witness for C9: the caller task completes first (time 1 vs 2) with an
error, and `run` surfaces exactly that error. -/
theorem embassy_wifi_run_race_spec_witness :
    EmbassyWifi.run (some 1) (Except.error (MatterError.other 7)) (some 2) =
      some (Except.error (MatterError.other 7)) := by
  have h := (embassy_wifi_run_race_spec (some 1) (Except.error (MatterError.other 7)) (some 2)).1
  exact h 1 rfl (by intro tb htb; injection htb with h2; omega)

/-- A native esp-wifi oracle where every call succeeds but the driver does
not report the association as established. -/
def espNativeNotConnected : EspWifiNative :=
  { is_started := Except.ok false
    stop_async := Except.ok ()
    set_configuration := Except.ok ()
    start_async := Except.ok ()
    connect_async := Except.ok ()
    is_connected := Except.ok false
    scan_with_config := fun _ => Except.ok [] }

/-- A native esp-wifi oracle where every call succeeds and the driver
reports the association as established. -/
def espNativeConnected : EspWifiNative :=
  { is_started := Except.ok true
    stop_async := Except.ok ()
    set_configuration := Except.ok ()
    start_async := Except.ok ()
    connect_async := Except.ok ()
    is_connected := Except.ok true
    scan_with_config := fun _ => Except.ok [] }

/-- Counterexample to claim C1 as stated: on `EspWifiController` there is a
concrete native behaviour (all native calls succeed, but `is_connected`
reports `false`) under which `connect` returns `Ok(())` — the attempt did
not fail — yet `connected_network()` afterwards yields `None`, not the new
network identity. -/
theorem connect_ok_reports_none_counterexample :
    (EspWifiController.connect espNativeNotConnected ⟨"home", "pass"⟩ none).1 = Except.ok () ∧
    (EspWifiController.connect espNativeNotConnected ⟨"home", "pass"⟩ none).2 = none ∧
    EspWifiController.connected_network
        (EspWifiController.connect espNativeNotConnected ⟨"home", "pass"⟩ none).2 ≠
      Except.ok (some "home") := by
  refine ⟨rfl, rfl, ?_⟩
  intro h
  simp [EspWifiController.connected_network, EspWifiController.connect,
    espNativeNotConnected] at h

/-- Claim C1 as amended: a `connect` attempt always clears the previously
recorded identity before attempting the new association (the outcome is
independent of the previous identity); after `connect` returns an error the
recorded identity is `none`; after a successful return the recorded identity
is the new network's identity exactly when the native driver reported the
association established; and the `Cyw43WifiController` stub always returns
`Ok(())` without recording any identity (its association logic is commented
out). -/
theorem connect_clears_identity_amended : ∀ (native : EspWifiNative)
    (creds : WifiCredentials) (prev1 prev2 : Option String),
    EspWifiController.connect native creds prev1 =
      EspWifiController.connect native creds prev2 ∧
    (∀ e, (EspWifiController.connect native creds prev1).1 = Except.error e →
      (EspWifiController.connect native creds prev1).2 = none) ∧
    ((EspWifiController.connect native creds prev1).1 = Except.ok () →
      ((EspWifiController.connect native creds prev1).2 = some creds.ssid ↔
        native.is_connected = Except.ok true)) ∧
    Cyw43WifiController.connect creds prev1 = (Except.ok (), none) := by
  intro native creds prev1 prev2
  obtain ⟨st, stp, setc, strt, cn, iscn, scn⟩ := native
  refine ⟨rfl, ?_, ?_, rfl⟩
  · intro e h
    rcases st with u | b
    · rfl
    · rcases iscn with u5 | b5 <;> rcases stp with u1 | u1 <;> rcases setc with u2 | u2 <;>
        rcases strt with u3 | u3 <;> rcases cn with u4 | u4 <;> cases b <;>
        first
          | rfl
          | (cases b5 <;>
              first
                | rfl
                | exact Except.noConfusion h)
  · intro h
    rcases st with u | b
    · exact Except.noConfusion h
    · rcases iscn with u5 | b5 <;> rcases stp with u1 | u1 <;> rcases setc with u2 | u2 <;>
        rcases strt with u3 | u3 <;> rcases cn with u4 | u4 <;> cases b <;>
        first
          | exact Except.noConfusion h
          | (cases b5 <;> simp [EspWifiController.connect])

/-- Witness for the amended C1: with a fully successful native connect whose
driver reports the association established, the recorded identity is the new
SSID. -/
theorem connect_clears_identity_amended_witness :
    (EspWifiController.connect espNativeConnected ⟨"net", "pw"⟩ (some "old")).2 = some "net" :=
  ((connect_clears_identity_amended espNativeConnected ⟨"net", "pw"⟩
    (some "old") none).2.2.1 rfl).mpr rfl

/-- A callback that always accepts, used to exercise the Cyw43 scan stub. -/
def c3Callback : Option WifiScanResult → Except MatterError Unit := fun _ => Except.ok ()

/-- Claim C3, evaluated at the failing input: `Cyw43WifiController::scan`
(whose body is commented out) returns `Ok(())` while invoking the callback
zero times — in particular the trace of callback invocations never ends
with the terminating `None` sentinel the claim requires. -/
theorem cyw43_scan_stub_eval :
    Cyw43WifiController.scan none c3Callback = (Except.ok (), []) ∧
    ¬ (∃ pre, (Cyw43WifiController.scan none c3Callback).2 = pre ++ [none]) := by
  refine ⟨rfl, ?_⟩
  rintro ⟨pre, hp⟩
  exact absurd hp.symm (by simp [Cyw43WifiController.scan])

end EmbassyMatter
